import Mathlib

/-
Verification of the Qwen-Web-Bridge browser-automation client
(src/src/qwen-client.ts, which contains three revisions of the QwenClient
class; we refer to them as variant 1 (puppeteer, lines 1-343), variant 2
(refactored puppeteer client, lines 344-674) and variant 3 (playwright,
lines 675-883)).

The embedding is shallow: the browser page is modelled per poll tick by the
list of text contents of the DOM elements matching the response selector,
plus a flag for the presence of a completion-marker element; the session
object is a record of the nullable fields of the class plus a flag for
whether the underlying browser process is running; fallible browser steps
(launch, newPage, goto, cookie read, cookie save, close) are driven by an
environment of booleans saying which step succeeds.  JavaScript string
primitives (.trim(), .substring(n), .slice(n), .length) are modelled at
character granularity over String.data.
-/

/-- Model of the JavaScript whitespace test used by String.prototype.trim
(restricted to the common ASCII whitespace characters). -/
def isJsWs (c : Char) : Bool :=
  c = ' ' || c = '\t' || c = '\n' || c = '\r' || c = '\x0b' || c = '\x0c'

/-- Trim whitespace from both ends of a character list. -/
def trimChars (l : List Char) : List Char :=
  ((l.dropWhile isJsWs).reverse.dropWhile isJsWs).reverse

/-- Model of JavaScript `s.trim()`. -/
def jsTrim (s : String) : String := ⟨trimChars s.data⟩

/-- Model of JavaScript `s.length` (character count). -/
def jsLen (s : String) : Nat := s.data.length

/-- Model of JavaScript `s.substring(n)` and `s.slice(n)` for `0 ≤ n`:
drop the first `n` characters, empty when `n ≥ s.length`. -/
def jsDrop (s : String) (n : Nat) : String := ⟨s.data.drop n⟩

/-- A chat message as supplied by the OpenAI-style request body:
a role string and a content string. -/
structure Msg where
  role : String
  content : String
deriving DecidableEq

/-- Variant 1 `convertMessagesToPrompt` maps each message through a switch on
the role (capitalizing into "System: " / "User: " / "Assistant: ", and passing
the bare content through for any other role). -/
def roleLabel1 (m : Msg) : String :=
  if m.role = "system" then "System: " ++ m.content
  else if m.role = "user" then "User: " ++ m.content
  else if m.role = "assistant" then "Assistant: " ++ m.content
  else m.content

/-- Variant 2 renders a message as `role: content`, role verbatim. -/
def entry2 (m : Msg) : String := m.role ++ ": " ++ m.content

/-- Model of JavaScript `Array.prototype.join(sep)`. -/
def joinSep (sep : String) : List String → String
  | [] => ""
  | [x] => x
  | x :: y :: rest => x ++ sep ++ joinSep sep (y :: rest)

/-- Variant 1 `convertMessagesToPrompt` (qwen-client.ts lines 173-188):
role-switched entries joined with a blank-line delimiter `"\n\n"`. -/
def convertMessagesToPrompt1 (msgs : List Msg) : String :=
  joinSep "\n\n" (msgs.map roleLabel1)

/-- Variant 2 `convertMessagesToPrompt` (qwen-client.ts lines 495-499):
`role: content` entries joined with `.join("\\n")`, i.e. with the literal
two-character sequence backslash-n, not a newline. -/
def convertMessagesToPrompt2 (msgs : List Msg) : String :=
  joinSep "\\n" (msgs.map entry2)

/-- Session state: the nullable `browser` and `page` fields of the class
(modelled by whether the reference is set), the `isInitialized` flag, plus
two facts about the world outside the object: whether the launched browser
process is running, and whether authentication cookies were successfully
loaded onto the current page. -/
structure CState where
  browserRef : Bool
  pageRef : Bool
  inited : Bool
  procRunning : Bool
  authed : Bool
deriving DecidableEq

/-- The state of a freshly constructed client. -/
def cleanState : CState := ⟨false, false, false, false, false⟩

/-- A state in which a session is fully open (used to instantiate theorems). -/
def readyState : CState := ⟨true, true, true, true, false⟩

/-- Spec notion: fully uninitialized — no browser, no page, flag false. -/
abbrev fullyUninit (s : CState) : Prop :=
  s.browserRef = false ∧ s.pageRef = false ∧ s.inited = false

/-- Spec notion: fully initialized — browser and page present, flag true. -/
abbrev fullyInit (s : CState) : Prop :=
  s.browserRef = true ∧ s.pageRef = true ∧ s.inited = true

/-- The in-memory references a cleanup must clear. -/
abbrev clearedRefs (s : CState) : Prop :=
  s.browserRef = false ∧ s.pageRef = false ∧ s.inited = false

/-- `isConnected()` of variants 1 and 2: initialized flag and both
references present. -/
def isConnected (s : CState) : Bool :=
  s.inited && s.browserRef && s.pageRef

/-- Which fallible steps of an `initialize()` / `cleanup()` call succeed:
browser launch, page acquisition (incl. page setup), presence of a stored
cookie path, cookie file read/parse/set, navigation to the chat URL, and
browser close (used by variant 1's rollback cleanup). -/
structure InitEnv where
  launchOk : Bool
  pageOk : Bool
  hasCookiePath : Bool
  cookieReadOk : Bool
  gotoOk : Bool
  closeOk : Bool
deriving DecidableEq

/-- Variant 1 `cleanup` (qwen-client.ts lines 331-343):
`try { if (browser) close() } catch { log } finally { clear refs }`.
Never throws; returns the new state and whether the call threw (always
`false`).  A failed close leaves the process running. -/
def cleanup1 (s : CState) (closeOk : Bool) : CState × Bool :=
  if s.browserRef = true ∧ closeOk = true then
    ({ s with browserRef := false, pageRef := false, inited := false,
              procRunning := false }, false)
  else
    ({ s with browserRef := false, pageRef := false, inited := false }, false)

/-- Variant 2 `cleanup` (qwen-client.ts lines 422-436):
`try { if (isInitialized) saveCookies(); if (browser) close() } finally
{ clear refs }`.  There is no catch: a throwing `saveCookies()` (which only
runs its body when a page is set) propagates and skips the browser close;
the finally block still clears the references.  Returns the new state and
whether the call threw. -/
def cleanup2 (s : CState) (saveOk closeOk : Bool) : CState × Bool :=
  if s.inited = true ∧ s.pageRef = true ∧ saveOk = false then
    ({ s with browserRef := false, pageRef := false, inited := false }, true)
  else if s.browserRef = true then
    if closeOk = true then
      ({ s with browserRef := false, pageRef := false, inited := false,
                procRunning := false }, false)
    else
      ({ s with browserRef := false, pageRef := false, inited := false }, true)
  else
    ({ s with browserRef := false, pageRef := false, inited := false }, false)

/-- Variant 1 `initialize` (qwen-client.ts lines 15-67): if already
initialized, return; else launch, newPage + setUserAgent, goto, (setup steps
that catch internally), set the flag.  The catch block runs `cleanup()` and
rethrows.  Result: new state, whether the call threw, and how many browser
processes were launched by the call. -/
def initSession1 (s : CState) (env : InitEnv) : CState × Bool × Nat :=
  if s.inited = true then (s, false, 0)
  else if env.launchOk = false then
    ((cleanup1 s env.closeOk).1, true, 0)
  else
    if env.pageOk = false then
      ((cleanup1 { s with browserRef := true, procRunning := true }
          env.closeOk).1, true, 1)
    else
      if env.gotoOk = false then
        ((cleanup1 { s with browserRef := true, procRunning := true,
                            pageRef := true } env.closeOk).1, true, 1)
      else
        ({ s with browserRef := true, procRunning := true, pageRef := true,
                  inited := true }, false, 1)

/-- Variant 2 `initialize` (qwen-client.ts lines 387-420): if already
initialized, return; else launch, take the first page (or a new one),
`loadCookies()` (which catches every failure internally and merely leaves
the page unauthenticated), goto, set the flag.  The catch block only sets
`isInitialized = false` and rethrows: it closes nothing and clears no
reference.  Result: new state, whether the call threw, launches. -/
def initSession2 (s : CState) (env : InitEnv) : CState × Bool × Nat :=
  if s.inited = true then (s, false, 0)
  else if env.launchOk = false then ({ s with inited := false }, true, 0)
  else
    if env.pageOk = false then
      ({ s with browserRef := true, procRunning := true, inited := false },
       true, 1)
    else
      if env.gotoOk = false then
        ({ s with browserRef := true, procRunning := true, pageRef := true,
                  authed := env.hasCookiePath && env.cookieReadOk,
                  inited := false }, true, 1)
      else
        ({ s with browserRef := true, procRunning := true, pageRef := true,
                  authed := env.hasCookiePath && env.cookieReadOk,
                  inited := true }, false, 1)

/-- One poll tick's view of the page for variants 2 and 3: the text contents
of the elements matching the response selector
`.message-content, .response-text, [data-testid="message-content"]`, in DOM
order, and whether an element matching the completion-marker selector
`.response-complete, .generation-done` is present. -/
structure Tick2 where
  dom : List String
  complete : Bool
deriving DecidableEq

/-- Variant 2 `pollResponse` per-tick read (qwen-client.ts lines 621-626):
`all = querySelectorAll(sel); all.length > 0 ?
all[all.length-1]?.textContent?.trim() || "" : ""` — the trimmed text of the
LAST matching element, or the empty string. -/
def readLast2 (dom : List String) : String :=
  match dom.getLast? with
  | some t => jsTrim t
  | none => ""

/-- Variant 2 `waitForStreamingResponse` per-tick read (qwen-client.ts line
652): `page.$(SELECTORS.response)` — the FIRST matching element, if any,
whose raw text content is then used untrimmed. -/
def readFirstRaw (dom : List String) : Option String := dom.head?

/-- Variant 2 `pollResponse` loop (qwen-client.ts lines 611-640) over a
finite trace of poll ticks; the trace running out models the overall
timeout elapsing.  Each tick reads the last matching element, replaces the
last-observed text when it differs, then breaks if the completion marker is
present; the final value is returned trimmed, never as an error. -/
def pollResponse2Aux : List Tick2 → String → String
  | [], last => jsTrim last
  | t :: rest, last =>
    let cur := readLast2 t.dom
    let last2 := if cur ≠ last then cur else last
    if t.complete = true then jsTrim last2 else pollResponse2Aux rest last2

/-- Variant 2 `pollResponse` started with `last = ""`. -/
def pollResponse2 (ticks : List Tick2) : String := pollResponse2Aux ticks ""

/-- Variant 2 `waitForStreamingResponse` per-tick chunk logic (qwen-client.ts
lines 653-664): when the trimmed current text differs from the trimmed
last text, take `currentContent.substring(lastContent.length)` and, when
that is nonempty, emit it and store the new full text.  Returns the emitted
chunk (if any) and the new stored text. -/
def streamStep (last cur : String) : Option String × String :=
  if jsTrim cur ≠ jsTrim last then
    if jsDrop cur (jsLen last) ≠ "" then
      (some (jsDrop cur (jsLen last)), cur)
    else (none, last)
  else (none, last)

/-- Variant 3 `pollResponse` per-tick chunk logic with `onChunk` present
(qwen-client.ts lines 866-872): when `cur.trim()` differs from the stored
value, `cur.slice(last.length)` is passed to `onChunk` unconditionally —
even when it is the empty string — and the stored value becomes
`cur.trim()`. -/
def stream3Step (last cur : String) : Option String × String :=
  if jsTrim cur ≠ last then
    (some (jsDrop cur (jsLen last)), jsTrim cur)
  else (none, last)

/-- Variant 2 `waitForStreamingResponse` loop (qwen-client.ts lines 642-673)
over a finite trace of poll ticks, collecting the chunks passed to
`onChunk` in order.  Each tick reads the FIRST matching element (skipping
the tick's content step when none matches), runs the chunk logic, then
breaks if the completion marker is present. -/
def streamChunks2Aux : List Tick2 → String → List String
  | [], _ => []
  | t :: rest, last =>
    match readFirstRaw t.dom with
    | some c =>
      match streamStep last c with
      | (some ch, last2) =>
        if t.complete = true then [ch] else ch :: streamChunks2Aux rest last2
      | (none, last2) =>
        if t.complete = true then [] else streamChunks2Aux rest last2
    | none =>
      if t.complete = true then [] else streamChunks2Aux rest last

/-- Variant 2 `waitForStreamingResponse` started with `lastContent = ""`. -/
def streamChunks2 (ticks : List Tick2) : List String := streamChunks2Aux ticks ""

/-- The response selectors of variant 1 `waitForResponse`
(qwen-client.ts lines 253-259), tried in order on every tick. -/
def responseSelectors1 : List String :=
  [".message-content:last-child",
   ".chat-message:last-child .message-text",
   ".response-text",
   "[data-testid=\"assistant-message\"]:last-child",
   ".ant-typography p"]

/-- One tick of variant 1 `waitForResponse` (qwen-client.ts lines 264-279):
the outer list is aligned with `responseSelectors1`; each inner list holds
the text contents of the elements matching that selector.  The first
selector with elements whose last element has nonempty trimmed text yields
that trimmed text; otherwise the tick yields nothing. -/
def tickResult1 : List (List String) → Option String
  | [] => none
  | d :: rest =>
    match d.getLast? with
    | some t => if jsTrim t ≠ "" then some (jsTrim t) else tickResult1 rest
    | none => tickResult1 rest

/-- Variant 1 `waitForResponse` loop (qwen-client.ts lines 250-285) over a
finite trace of ticks: return the first nonempty trimmed text observed;
when the trace runs out (the overall timeout elapses) it THROWS
`'Timeout waiting for response'`. -/
def waitForResponse1 : List (List (List String)) → Except String String
  | [] => Except.error "Timeout waiting for response"
  | t :: rest =>
    match tickResult1 t with
    | some s => Except.ok s
    | none => waitForResponse1 rest

/-- The ordered chat-input selector list of variant 1 `fillChatInput`
(qwen-client.ts lines 193-201). -/
def chatInputSelectors1 : List String :=
  ["textarea[placeholder*=\"ask\"], textarea[placeholder*=\"question\"]",
   "input[placeholder*=\"ask\"], input[placeholder*=\"question\"]",
   ".chat-input textarea",
   ".input-box textarea",
   "[data-testid=\"chat-input\"]",
   "textarea:not([disabled])",
   ".ant-input"]

/-- The ordered chat-input selector list of variant 2 (`SELECTORS.chatInput`,
qwen-client.ts lines 351-357). -/
def chatInputSelectors2 : List String :=
  ["textarea[placeholder*=\"ask\"], textarea[placeholder*=\"question\"]",
   "input[placeholder*=\"ask\"], input[placeholder*=\"question\"]",
   ".chat-input textarea",
   ".input-box textarea",
   "[data-testid=\"chat-input\"]"]

/-- The ordered submit selector list (`SELECTORS.submit`, qwen-client.ts
lines 358-365; identical in variant 1). -/
def submitSelectors : List String :=
  ["button[type=\"submit\"]",
   "button:has-text(\"Send\")",
   "button:has-text(\"发送\")",
   ".send-button",
   "[data-testid=\"send-button\"]",
   "button[class*=\"send\"]"]

/-- A page is modelled, for the interaction driver, by the list of selector
expressions it has a matching element for; `find` (qwen-client.ts lines
580-587) returns the first selector of the ordered list that matches. -/
def find (page : List String) (selectorList : List String) : Option String :=
  selectorList.find? (fun sel => page.contains sel)

/-- Observable page interactions performed by a send, in order. -/
inductive PageAct where
  | formatPrompt
  | clickInput
  | typeText (text : String)
  | clickSubmit
  | pressEnter
  | poll
deriving DecidableEq

/-- Variant 2 `fillChatInput` (qwen-client.ts lines 589-594): find the first
matching chat-input selector; if none, return false; else type the prompt.
Returns whether an input was found and the page interactions performed. -/
def fillChatInput2 (page : List String) (prompt : String) : Bool × List PageAct :=
  match find page chatInputSelectors2 with
  | some _ => (true, [PageAct.typeText prompt])
  | none => (false, [])

/-- Variant 1 `fillChatInput` (qwen-client.ts lines 190-218): try each
selector in order; on the first match, click it and type the prompt
(failures of click/type are caught and the loop continues — not modelled,
as the page model has no throwing elements); if no selector matches,
return false. -/
def fillChatInput1 (page : List String) (prompt : String) : Bool × List PageAct :=
  match find page chatInputSelectors1 with
  | some _ => (true, [PageAct.clickInput, PageAct.typeText prompt])
  | none => (false, [])

/-- `submitMessage` (qwen-client.ts lines 596-604): click the first matching
submit selector, else fall back to pressing Enter. -/
def submitAction (page : List String) : PageAct :=
  match find page submitSelectors with
  | some _ => PageAct.clickSubmit
  | none => PageAct.pressEnter

/-- Variant 2 `sendMessage` (qwen-client.ts lines 456-473): if the session is
not initialized or has no page, throw `'Browser not initialized. Please open
the browser first.'` before doing anything else; otherwise format the
prompt, fill the chat input (throwing `'Failed to find chat input field.'`
when no input selector matches, before any submission attempt), submit, and
poll for the response.  Result: the page interactions performed, and either
the thrown error or the polled response text. -/
def sendMessage2 (s : CState) (page : List String) (msgs : List Msg)
    (ticks : List Tick2) : List PageAct × Except String String :=
  if s.inited = false ∨ s.pageRef = false then
    ([], Except.error "Browser not initialized. Please open the browser first.")
  else
    let fill := fillChatInput2 page (convertMessagesToPrompt2 msgs)
    if fill.1 = false then
      ([PageAct.formatPrompt] ++ fill.2,
       Except.error "Failed to find chat input field.")
    else
      ([PageAct.formatPrompt] ++ fill.2 ++ [submitAction page, PageAct.poll],
       Except.ok (pollResponse2 ticks))

/-- Variant 2 `sendMessageStream` (qwen-client.ts lines 475-493): same
guards and steps as `sendMessage2`, but the response phase is the
chunk-emitting streaming wait. -/
def sendMessageStream2 (s : CState) (page : List String) (msgs : List Msg)
    (ticks : List Tick2) : List PageAct × Except String (List String) :=
  if s.inited = false ∨ s.pageRef = false then
    ([], Except.error "Browser not initialized. Please open the browser first.")
  else
    let fill := fillChatInput2 page (convertMessagesToPrompt2 msgs)
    if fill.1 = false then
      ([PageAct.formatPrompt] ++ fill.2,
       Except.error "Failed to find chat input field.")
    else
      ([PageAct.formatPrompt] ++ fill.2 ++ [submitAction page, PageAct.poll],
       Except.ok (streamChunks2 ticks))

/-! Helper lemmas. -/

theorem strEta (s : String) : String.mk s.data = s :=
  String.ext rfl

theorem mem_data_append {c : Char} {a b : String} :
    c ∈ (a ++ b).data ↔ c ∈ a.data ∨ c ∈ b.data := by
  rw [String.data_append]
  exact List.mem_append

theorem jsDrop_zero (s : String) : jsDrop s 0 = s := by
  rw [jsDrop, List.drop_zero, strEta]

theorem jsDrop_eq_empty_iff (s : String) (n : Nat) :
    jsDrop s n = "" ↔ jsLen s ≤ n := by
  rw [jsDrop, jsLen, String.ext_iff]
  exact List.drop_eq_nil_iff

theorem iteNeSelf {α : Type} [DecidableEq α] (a b : α) :
    (if a ≠ b then a else b) = a := by
  by_cases h : a = b
  · simp [h]
  · simp [h]

theorem jsTrim_empty : jsTrim "" = "" := rfl

theorem jsTrim_ne_iff_of_ne_empty {c : String} (h : jsTrim c = c) (hne : c ≠ "") :
    jsTrim c ≠ jsTrim "" := by
  rw [h, jsTrim_empty]
  exact hne

/-! C1. -/

/-- C1: the claim states that a streaming chunk is emitted on a tick if and
only if the new text is longer than the previous text AND has the previous
text as a prefix.  False: the chunk logic of `waitForStreamingResponse`
never checks the prefix condition, so a longer replacement text (previous
`"Hello"`, current `"Worlds!"`, not a prefix extension) still emits a chunk
— the garbage suffix `"s!"` — and stores the new text. -/
theorem c1_counterexample :
    (streamStep "Hello" "Worlds!") = (some "s!", "Worlds!")
    ∧ List.isPrefixOf "Hello".data "Worlds!".data = false := by
  decide

/-- C1 (amended): on every tick of variant 2 `waitForStreamingResponse`, a
chunk is emitted iff the trimmed new text differs from the trimmed previous
text AND the new text is strictly longer than the previous text (so nothing
is emitted when the content is unchanged up to trimming or shrank, but a
longer replacement does emit); the emitted chunk is
`substring(lastContent.length)` — which equals the appended suffix whenever
the previous text is a prefix of the new one — and the stored text is
updated to the new full text exactly when a chunk is emitted.  Variant 3
`pollResponse` with `onChunk` differs further: it emits on any trimmed
change, passing the possibly-empty slice to the callback even when the text
shrank. -/
theorem c1_amended (last cur : String) :
    (streamStep last cur =
      if jsTrim cur ≠ jsTrim last ∧ jsLen last < jsLen cur then
        (some (jsDrop cur (jsLen last)), cur)
      else (none, last))
    ∧ (List.isPrefixOf last.data cur.data = true →
        last ++ jsDrop cur (jsLen last) = cur)
    ∧ (jsTrim cur ≠ last → jsLen cur ≤ jsLen last →
        (stream3Step last cur).1 = some "") := by
  refine ⟨?_, ?_, ?_⟩
  · rw [streamStep]
    by_cases h1 : jsTrim cur = jsTrim last
    · simp [h1]
    · by_cases h2 : jsLen last < jsLen cur
      · have hne : jsDrop cur (jsLen last) ≠ "" := by
          rw [Ne, jsDrop_eq_empty_iff]
          omega
        simp [h1, h2, hne]
      · have he : jsDrop cur (jsLen last) = "" :=
          (jsDrop_eq_empty_iff _ _).mpr (by omega)
        simp [h1, h2, he]
  · intro hp
    obtain ⟨t, ht⟩ := (List.isPrefixOf_iff_prefix.mp hp)
    have : jsDrop cur (jsLen last) = String.mk t := by
      rw [jsDrop, jsLen, ← ht, List.drop_left]
    rw [this]
    rw [String.ext_iff, String.data_append]
    exact ht
  · intro h1 h2
    rw [stream3Step, if_pos h1, (jsDrop_eq_empty_iff _ _).mpr h2]

/-- C1 witness: for an append-only growth step `"Hel"` to `"Hello"`, the
emitted delta is exactly the appended suffix. -/
theorem c1_witness : "Hel" ++ jsDrop "Hello" (jsLen "Hel") = "Hello" :=
  (c1_amended "Hel" "Hello").2.1 (by decide)

/-! C2. -/

/-- C2: the claim states that after every `initialize()` call the session is
either fully uninitialized or fully initialized, with failures tearing down
partial state (browser closed, references cleared).  False for variant 2:
when the launch succeeds but the navigation fails, the catch block only
resets `isInitialized`, so the session is left with browser and page
references set, the flag false, and the browser process still running —
neither fully uninitialized nor fully initialized, and nothing was torn
down. -/
theorem c2_counterexample :
    (initSession2 cleanState ⟨true, true, false, true, false, true⟩).2.1 = true
    ∧ ¬ fullyUninit (initSession2 cleanState ⟨true, true, false, true, false, true⟩).1
    ∧ ¬ fullyInit (initSession2 cleanState ⟨true, true, false, true, false, true⟩).1
    ∧ (initSession2 cleanState ⟨true, true, false, true, false, true⟩).1.procRunning = true := by
  decide

/-- C2 (amended): starting from a fresh session, variant 1 `initialize`
does satisfy the claim — on failure it rolls back via `cleanup()` to fully
uninitialized (closing the browser when the close itself succeeds), and on
success it is fully initialized.  Variant 2 `initialize` on success is fully
initialized, but on failure only guarantees that the `isInitialized` flag is
false (so `isConnected()` reports false): when the failure happened after
the launch, the browser reference remains set and the process keeps
running. -/
theorem c2_amended (env : InitEnv) :
    ((initSession1 cleanState env).2.1 = true →
      fullyUninit (initSession1 cleanState env).1)
    ∧ ((initSession1 cleanState env).2.1 = false →
      fullyInit (initSession1 cleanState env).1)
    ∧ ((initSession1 cleanState env).2.1 = true → env.closeOk = true →
      (initSession1 cleanState env).1.procRunning = false)
    ∧ ((initSession2 cleanState env).2.1 = false →
      fullyInit (initSession2 cleanState env).1)
    ∧ ((initSession2 cleanState env).2.1 = true →
      (initSession2 cleanState env).1.inited = false
      ∧ isConnected (initSession2 cleanState env).1 = false)
    ∧ (env.launchOk = true → (initSession2 cleanState env).2.1 = true →
      (initSession2 cleanState env).1.browserRef = true
      ∧ (initSession2 cleanState env).1.procRunning = true) := by
  obtain ⟨a, b, c, d, e, f⟩ := env
  cases a <;> cases b <;> cases c <;> cases d <;> cases e <;> cases f <;> decide

/-- C2 witness: a fully successful variant 2 call initializes fully; a
variant 1 call failing at navigation rolls back to fully uninitialized. -/
theorem c2_witness :
    fullyInit (initSession2 cleanState ⟨true, true, true, true, true, true⟩).1
    ∧ fullyUninit (initSession1 cleanState ⟨true, true, true, true, false, true⟩).1 :=
  ⟨(c2_amended ⟨true, true, true, true, true, true⟩).2.2.2.1 (by decide),
   (c2_amended ⟨true, true, true, true, false, true⟩).1 (by decide)⟩

/-! C3. -/

theorem pollAux_timeout (ticks : List Tick2) : ∀ last : String,
    (∀ t ∈ ticks, t.complete = false) →
    pollResponse2Aux ticks last =
      jsTrim (ticks.foldl (fun _ t => readLast2 t.dom) last) := by
  induction ticks with
  | nil => intro last _; rfl
  | cons t rest ih =>
    intro last h
    have ht : t.complete = false := h t (List.mem_cons_self t rest)
    have hrest : ∀ x ∈ rest, x.complete = false :=
      fun x hx => h x (List.mem_cons_of_mem t hx)
    show (if t.complete = true then _ else pollResponse2Aux rest _) = _
    rw [ht]
    simp only [Bool.false_eq_true, if_false, List.foldl_cons, iteNeSelf]
    exact ih _ hrest

theorem waitTimeout1 (ticks : List (List (List String)))
    (h : ∀ t ∈ ticks, tickResult1 t = none) :
    waitForResponse1 ticks = Except.error "Timeout waiting for response" := by
  induction ticks with
  | nil => rfl
  | cons t rest ih =>
    show (match tickResult1 t with
          | some s => Except.ok s
          | none => waitForResponse1 rest) = _
    rw [h t (List.mem_cons_self t rest)]
    exact ih fun x hx => h x (List.mem_cons_of_mem t hx)

/-- C3: the claim states that whenever the overall timeout elapses before a
completion marker appears, the single-shot wait returns the last observed
text (trimmed, possibly empty) and does not raise an error.  False for
variant 1 `waitForResponse`, one of the functions the claim covers: on a
trace in which no response selector ever yields nonempty text, the timeout
elapses and the call THROWS `'Timeout waiting for response'` instead of
returning the (empty) last observation. -/
theorem c3_counterexample :
    waitForResponse1 [[[], [], [], [], []]]
      = Except.error "Timeout waiting for response"
    ∧ waitForResponse1 [[[], [], [], [], []]] ≠ Except.ok "" := by
  refine ⟨rfl, ?_⟩
  intro h
  rw [show waitForResponse1 [[[], [], [], [], []]]
        = Except.error "Timeout waiting for response" from rfl] at h
  exact Except.noConfusion h

/-- C3 (amended): variant 2 `pollResponse` (and with it variant 2
`waitForResponse` and the single-shot `sendMessage` path) does satisfy the
claim: on any trace in which no tick shows a completion marker — the
overall timeout elapsing — the call returns the last observed text,
trimmed, as a plain value (its type admits no error).  Variant 1
`waitForResponse`, by contrast, throws `'Timeout waiting for response'` on
any trace in which no tick ever yields nonempty text. -/
theorem c3_amended (ticks : List Tick2) (ticks1 : List (List (List String)))
    (h : ∀ t ∈ ticks, t.complete = false)
    (h1 : ∀ t ∈ ticks1, tickResult1 t = none) :
    pollResponse2 ticks = jsTrim (ticks.foldl (fun _ t => readLast2 t.dom) "")
    ∧ waitForResponse1 ticks1 = Except.error "Timeout waiting for response" :=
  ⟨pollAux_timeout ticks "" h, waitTimeout1 ticks1 h1⟩

/-- C3 witness: a two-tick trace with no completion marker returns the last
observation `" hi"` trimmed, while a variant 1 trace with no nonempty text
yields the timeout error. -/
theorem c3_witness :
    pollResponse2 [⟨["ho"], false⟩, ⟨[" hi"], false⟩]
      = jsTrim ([(⟨["ho"], false⟩ : Tick2), ⟨[" hi"], false⟩].foldl
          (fun _ t => readLast2 t.dom) "")
    ∧ waitForResponse1 [[[], [], [], [], []], [[""], [], [], [], []]]
      = Except.error "Timeout waiting for response" :=
  c3_amended [⟨["ho"], false⟩, ⟨[" hi"], false⟩]
    [[[], [], [], [], []], [[""], [], [], [], []]] (by decide) (by decide)

/-! C4. -/

theorem notMem_joinSep (c : Char) (sep : String) (l : List String)
    (hs : c ∉ sep.data) (hl : ∀ e ∈ l, c ∉ e.data) :
    c ∉ (joinSep sep l).data := by
  induction l with
  | nil => simp [joinSep, show ("" : String).data = [] from rfl]
  | cons x rest ih =>
    cases rest with
    | nil => exact hl x (List.mem_cons_self x [])
    | cons y t =>
      intro hmem
      rcases mem_data_append.mp hmem with h1 | h2
      · rcases mem_data_append.mp h1 with h3 | h4
        · exact hl x (List.mem_cons_self x (y :: t)) h3
        · exact hs h4
      · exact ih (fun e he => hl e (List.mem_cons_of_mem x he)) h2

/-- C4: the claim states that both prompt formatters render each message as
the role EXACTLY AS GIVEN followed by `': '` and the content, with entries
separated by a newline delimiter.  False twice over: variant 1 capitalizes
the roles (message `{role: "system", content: "a"}` renders as
`"System: a"`, not `"system: a"`), and variant 2 joins entries with the
literal two-character sequence backslash-n (from `.join("\\n")` in the
source), which contains no newline character at all. -/
theorem c4_counterexample :
    convertMessagesToPrompt1 [⟨"system", "a"⟩] = "System: a"
    ∧ convertMessagesToPrompt1 [⟨"system", "a"⟩] ≠ "system: a"
    ∧ convertMessagesToPrompt2 [⟨"user", "a"⟩, ⟨"user", "b"⟩]
        = "user: a" ++ "\\n" ++ "user: b"
    ∧ '\n' ∉ (convertMessagesToPrompt2 [⟨"user", "a"⟩, ⟨"user", "b"⟩]).data := by
  decide

/-- C4 (amended): both formatters produce exactly one entry per message, in
input order.  Variant 2 renders each entry as the role verbatim followed by
`': '` and the content, with consecutive entries separated by the fixed
two-character delimiter backslash-n — so when no role or content contains a
newline, the whole output is a single line.  Variant 1 renders entries via
the capitalizing role switch (`System: ` / `User: ` / `Assistant: `, bare
content for unknown roles) separated by the blank-line delimiter
`"\n\n"`. -/
theorem c4_amended (m : Msg) (msgs : List Msg)
    (hnl : ∀ x ∈ m :: msgs, '\n' ∉ x.role.data ∧ '\n' ∉ x.content.data) :
    convertMessagesToPrompt2 (m :: msgs)
      = entry2 m ++ (match msgs with
          | [] => ""
          | _ :: _ => "\\n" ++ convertMessagesToPrompt2 msgs)
    ∧ convertMessagesToPrompt1 (m :: msgs)
      = roleLabel1 m ++ (match msgs with
          | [] => ""
          | _ :: _ => "\n\n" ++ convertMessagesToPrompt1 msgs)
    ∧ '\n' ∉ (convertMessagesToPrompt2 (m :: msgs)).data := by
  refine ⟨?_, ?_, ?_⟩
  · cases msgs with
    | nil => exact (String.append_empty _).symm
    | cons y t =>
      show joinSep "\\n" (entry2 m :: entry2 y :: t.map entry2) = _
      rw [joinSep, String.append_assoc]
      rfl
  · cases msgs with
    | nil => exact (String.append_empty _).symm
    | cons y t =>
      show joinSep "\n\n" (roleLabel1 m :: roleLabel1 y :: t.map roleLabel1) = _
      rw [joinSep, String.append_assoc]
      rfl
  · apply notMem_joinSep
    · decide
    · intro e he
      rcases List.mem_map.mp he with ⟨x, hx, hex⟩
      rcases hnl x hx with ⟨hr, hc⟩
      rw [← hex]
      intro hmem
      rcases mem_data_append.mp hmem with h1 | h2
      · rcases mem_data_append.mp h1 with h3 | h4
        · exact hr h3
        · revert h4
          decide
      · exact hc h2

/-- C4 witness: two-message instance of the amended characterization. -/
theorem c4_witness :
    convertMessagesToPrompt2 [⟨"user", "a"⟩, ⟨"assistant", "b"⟩]
      = entry2 ⟨"user", "a"⟩ ++ ("\\n" ++ convertMessagesToPrompt2 [⟨"assistant", "b"⟩]) :=
  (c4_amended ⟨"user", "a"⟩ [⟨"assistant", "b"⟩] (by decide)).1

/-! C5. -/

/-- C5: the claim states that a cookie save failure during `cleanup()` is
logged, never propagated, and does not prevent the browser close.  False:
variant 2 `cleanup` wraps the save and the close in a `try`/`finally` with
NO catch, so when `saveCookies()` throws on a fully open session the error
propagates to the caller and the `browser.close()` step is skipped — the
browser process is left running (only the references are cleared by the
finally block). -/
theorem c5_counterexample :
    (cleanup2 ⟨true, true, true, true, true⟩ false true).2 = true
    ∧ (cleanup2 ⟨true, true, true, true, true⟩ false true).1.procRunning = true := by
  decide

/-- C5 (amended): a cookie LOAD failure during variant 2 `initialize` is
indeed swallowed: with launch, page and navigation succeeding, the call
succeeds and fully initializes regardless of the cookie read, merely leaving
the session unauthenticated when the read failed.  A cookie SAVE failure
during variant 2 `cleanup`, however, propagates to the caller and skips the
browser close (the process keeps running); the in-memory references are
still cleared. -/
theorem c5_amended (env : InitEnv) (s : CState) (saveOk closeOk : Bool) :
    (env.launchOk = true → env.pageOk = true → env.gotoOk = true →
      (initSession2 cleanState env).2.1 = false
      ∧ fullyInit (initSession2 cleanState env).1
      ∧ (env.cookieReadOk = false → (initSession2 cleanState env).1.authed = false))
    ∧ (s.inited = true → s.pageRef = true → saveOk = false →
      cleanup2 s saveOk closeOk =
        ({ s with browserRef := false, pageRef := false, inited := false }, true)) := by
  constructor
  · obtain ⟨a, b, c, d, e, f⟩ := env
    cases a <;> cases b <;> cases c <;> cases d <;> cases e <;> cases f <;> decide
  · intro hi hp hs
    rw [cleanup2, if_pos ⟨hi, hp, hs⟩]

/-- C5 witness: cookie read fails yet `initialize` succeeds unauthenticated;
a failing save on an open session propagates and leaves the process
running. -/
theorem c5_witness :
    (initSession2 cleanState ⟨true, true, true, false, true, true⟩).2.1 = false
    ∧ (initSession2 cleanState ⟨true, true, true, false, true, true⟩).1.authed = false
    ∧ cleanup2 readyState false true = (⟨false, false, false, true, false⟩, true) := by
  have h1 := (c5_amended ⟨true, true, true, false, true, true⟩ readyState false true).1
    rfl rfl rfl
  have h2 := (c5_amended ⟨true, true, true, false, true, true⟩ readyState false true).2
    rfl rfl rfl
  exact ⟨h1.1, h1.2.2 rfl, h2⟩

/-! C6. -/

/-- C6: every `cleanup()` call clears the browser reference, the page
reference and the initialized flag — in both variants, whatever the fate of
the cookie save and the browser close (the `finally` block runs regardless)
— so a second `cleanup()` right after a first one is a no-op that does not
throw, and `cleanup()` on an uninitialized session is a no-op that does not
throw. -/
theorem c6 (s : CState) (saveOk closeOk : Bool) :
    clearedRefs (cleanup2 s saveOk closeOk).1
    ∧ clearedRefs (cleanup1 s closeOk).1
    ∧ (clearedRefs s → cleanup2 s saveOk closeOk = (s, false))
    ∧ (clearedRefs s → cleanup1 s closeOk = (s, false))
    ∧ cleanup2 (cleanup2 s saveOk closeOk).1 saveOk closeOk
        = ((cleanup2 s saveOk closeOk).1, false) := by
  obtain ⟨br, pr, it, proc, au⟩ := s
  cases br <;> cases pr <;> cases it <;> cases proc <;> cases au <;>
    cases saveOk <;> cases closeOk <;> decide

/-- C6 witness: cleanup of an open session clears the references, and
cleanup of a fresh (uninitialized) session is a no-op without a throw. -/
theorem c6_witness :
    clearedRefs (cleanup2 readyState true true).1
    ∧ cleanup2 cleanState true true = (cleanState, false)
    ∧ cleanup1 cleanState true = (cleanState, false) :=
  ⟨(c6 readyState true true).1,
   (c6 cleanState true true).2.2.1 (by decide),
   (c6 cleanState true true).2.2.2.1 (by decide)⟩

/-! C7. -/

/-- C7: the claim states that on each tick both modes read the text of the
LAST element matching the response selector.  False for variant 2: its
single-shot `pollResponse` does read the last matching element (observing
`"B"` on a page whose matching elements read `"A"`, `"B"`), but its
`waitForStreamingResponse` reads the FIRST matching element via `page.$`,
observing `"A"` on the very same page and emitting `"A"` as the chunk. -/
theorem c7_counterexample :
    readLast2 ["A", "B"] = "B"
    ∧ readFirstRaw ["A", "B"] = some "A"
    ∧ pollResponse2 [⟨["A", "B"], true⟩] = "B"
    ∧ streamChunks2 [⟨["A", "B"], true⟩] = ["A"] := by
  decide

/-- C7 (amended): variant 2 single-shot mode reads the trimmed text of the
last matching element on each tick, while variant 2 streaming mode reads
the raw text of the first matching element; the two per-tick observations
agree whenever exactly one element matches the response selector. -/
theorem c7_amended (d : List String) (hd : d ≠ [])
    (hdt : ∀ t ∈ d, jsTrim t = t) (hne : d.head hd ≠ "") :
    pollResponse2 [⟨d, true⟩] = d.getLast hd
    ∧ streamChunks2 [⟨d, true⟩] = [d.head hd] := by
  have hgl : d.getLast? = some (d.getLast hd) := List.getLast?_eq_getLast d hd
  have hglm : d.getLast hd ∈ d := List.getLast_mem hd
  have hhm : d.head hd ∈ d := List.head_mem hd
  have hr : readLast2 d = d.getLast hd := by
    rw [readLast2, hgl]
    exact hdt _ hglm
  constructor
  · show pollResponse2Aux [⟨d, true⟩] "" = d.getLast hd
    simp only [pollResponse2Aux, hr]
    by_cases hlast : d.getLast hd = ""
    · simp [hlast, jsTrim_empty]
    · simp [hlast, hdt _ hglm]
  · have hh : readFirstRaw d = some (d.head hd) := List.head?_eq_head hd
    have hstep : streamStep "" (d.head hd) = (some (d.head hd), d.head hd) := by
      rw [streamStep, if_pos (jsTrim_ne_iff_of_ne_empty (hdt _ hhm) hne),
        show jsLen "" = 0 from rfl, jsDrop_zero, if_pos hne]
    show streamChunks2Aux [⟨d, true⟩] "" = [d.head hd]
    simp [streamChunks2Aux, hh, hstep]

/-- C7 witness: on a single-element page both observations agree. -/
theorem c7_witness :
    pollResponse2 [⟨["x"], true⟩] = (["x"] : List String).getLast (by decide)
    ∧ streamChunks2 [⟨["x"], true⟩] = [(["x"] : List String).head (by decide)] :=
  c7_amended ["x"] (by decide) (by decide) (by decide)

/-! C8. -/

theorem initSession1_noop (s : CState) (env : InitEnv) (h : s.inited = true) :
    initSession1 s env = (s, false, 0) := by
  rw [initSession1, if_pos h]

theorem initSession2_noop (s : CState) (env : InitEnv) (h : s.inited = true) :
    initSession2 s env = (s, false, 0) := by
  rw [initSession2, if_pos h]

theorem initSession2_success (env : InitEnv)
    (h : (initSession2 cleanState env).2.1 = false) :
    (initSession2 cleanState env).1.inited = true
    ∧ (initSession2 cleanState env).2.2 ≤ 1 := by
  revert h
  obtain ⟨a, b, c, d, e, f⟩ := env
  cases a <;> cases b <;> cases c <;> cases d <;> cases e <;> cases f <;> decide

/-- C8: the claim states that a second `initialize()` call without an
intervening `close()` is unconditionally a no-op, so the browser is
launched at most once across the two calls.  False when the first call
fails after its launch: variant 2 launches, fails at navigation (leaving
the flag false), and a second call then runs the whole sequence again —
two launches across the two calls, and the second call changes the
state. -/
theorem c8_counterexample :
    (initSession2 cleanState ⟨true, true, false, true, false, true⟩).2.2
      + (initSession2
          (initSession2 cleanState ⟨true, true, false, true, false, true⟩).1
          ⟨true, true, false, true, true, true⟩).2.2 = 2
    ∧ (initSession2
          (initSession2 cleanState ⟨true, true, false, true, false, true⟩).1
          ⟨true, true, false, true, true, true⟩).1
      ≠ (initSession2 cleanState ⟨true, true, false, true, false, true⟩).1 := by
  decide

/-- C8 (amended): on an already-initialized session, `initialize()` of both
variants is a no-op — unchanged state, no throw, no launch.  Consequently,
whenever a first variant 2 call from a fresh session SUCCEEDS, a second call
is a no-op and the browser is launched at most once across the two calls;
only after a failed first call may a second call launch again. -/
theorem c8_amended (s : CState) (env env1 env2 : InitEnv) (h : s.inited = true) :
    initSession1 s env = (s, false, 0)
    ∧ initSession2 s env = (s, false, 0)
    ∧ ((initSession2 cleanState env1).2.1 = false →
        initSession2 (initSession2 cleanState env1).1 env2
          = ((initSession2 cleanState env1).1, false, 0)
        ∧ (initSession2 cleanState env1).2.2
            + (initSession2 (initSession2 cleanState env1).1 env2).2.2 ≤ 1) := by
  refine ⟨initSession1_noop s env h, initSession2_noop s env h, ?_⟩
  intro hs
  obtain ⟨hinit, hlaunch⟩ := initSession2_success env1 hs
  have hn := initSession2_noop (initSession2 cleanState env1).1 env2 hinit
  rw [hn]
  exact ⟨rfl, by simpa using hlaunch⟩

/-- C8 witness: after a successful open, a further call is a no-op with no
launch. -/
theorem c8_witness :
    initSession2 readyState ⟨true, true, true, true, true, true⟩
      = (readyState, false, 0) :=
  (c8_amended readyState ⟨true, true, true, true, true, true⟩
    ⟨true, true, true, true, true, true⟩ ⟨true, true, true, true, true, true⟩
    rfl).2.1

/-! C9. -/

theorem find_eq_none_of_all_miss (page selectorList : List String)
    (h : ∀ sel ∈ selectorList, page.contains sel = false) :
    find page selectorList = none :=
  List.find?_eq_none.mpr fun sel hs => by simpa using h sel hs

/-- C9: on an open session whose page matches none of the chat-input
selectors, `fillChatInput` returns false (in both variants) and variant 2
`sendMessage` rejects with the explicit `'Failed to find chat input
field.'` error after only formatting the prompt — before any submission
attempt, so the interaction trace contains no typing, no submit click and
no Enter keystroke. -/
theorem c9 (s : CState) (page : List String) (msgs : List Msg)
    (ticks : List Tick2) (prompt : String)
    (h1 : s.inited = true) (h2 : s.pageRef = true)
    (h3 : ∀ sel ∈ chatInputSelectors2, page.contains sel = false)
    (h4 : ∀ sel ∈ chatInputSelectors1, page.contains sel = false) :
    (fillChatInput2 page prompt).1 = false
    ∧ (fillChatInput1 page prompt).1 = false
    ∧ sendMessage2 s page msgs ticks
        = ([PageAct.formatPrompt], Except.error "Failed to find chat input field.") := by
  have hf2 : find page chatInputSelectors2 = none :=
    find_eq_none_of_all_miss page chatInputSelectors2 h3
  have hf1 : find page chatInputSelectors1 = none :=
    find_eq_none_of_all_miss page chatInputSelectors1 h4
  refine ⟨?_, ?_, ?_⟩
  · rw [fillChatInput2, hf2]
  · rw [fillChatInput1, hf1]
  · rw [sendMessage2, if_neg (by simp [h1, h2])]
    simp only [fillChatInput2, hf2]
    rfl

/-- C9 witness: an open session over a page with no matching selectors. -/
theorem c9_witness :
    (fillChatInput2 [] "hi").1 = false
    ∧ (fillChatInput1 [] "hi").1 = false
    ∧ sendMessage2 readyState [] [⟨"user", "hi"⟩] []
        = ([PageAct.formatPrompt], Except.error "Failed to find chat input field.") :=
  c9 readyState [] [⟨"user", "hi"⟩] [] "hi" rfl rfl (by decide) (by decide)

/-! C10. -/

/-- C10: when the session is uninitialized (flag unset or page missing),
variant 2 `sendMessage` and `sendMessageStream` throw `'Browser not
initialized. Please open the browser first.'` immediately: the interaction
trace is empty — no prompt formatting and no page interaction has happened
— and no auto-open is attempted; the caller must open the session first. -/
theorem c10 (s : CState) (page : List String) (msgs : List Msg)
    (ticks : List Tick2) (h : s.inited = false ∨ s.pageRef = false) :
    sendMessage2 s page msgs ticks
      = ([], Except.error "Browser not initialized. Please open the browser first.")
    ∧ sendMessageStream2 s page msgs ticks
      = ([], Except.error "Browser not initialized. Please open the browser first.") := by
  constructor
  · rw [sendMessage2, if_pos h]
  · rw [sendMessageStream2, if_pos h]

/-- C10 witness: a fresh session rejects both sends with the
not-initialized error and an empty interaction trace. -/
theorem c10_witness :
    sendMessage2 cleanState ["textarea:not([disabled])"] [⟨"user", "hi"⟩] []
      = ([], Except.error "Browser not initialized. Please open the browser first.")
    ∧ sendMessageStream2 cleanState ["textarea:not([disabled])"] [⟨"user", "hi"⟩] []
      = ([], Except.error "Browser not initialized. Please open the browser first.") :=
  c10 cleanState ["textarea:not([disabled])"] [⟨"user", "hi"⟩] [] (Or.inl rfl)
